import Mathlib

/-!
Shallow embedding of the drone-coordinator core (matching engine, conflict
detector, assignment coordinator) translated from
`src/api/services/matching_service.py`, `src/api/agents/conflict_detector.py`
and `src/api/agents/coordinator_agent.py`.

Modelling conventions:
* Calendar dates are modelled as integer day ordinals (`Int`): Python `date`
  comparison corresponds to integer comparison and `(d1 - d2).days` to
  integer subtraction, both order- and difference-exact.
* Python `float` arithmetic on the small score weights is modelled with exact
  rationals (`ℚ`); no verified claim depends on binary floating-point
  rounding artifacts.
* Python `round(x, 2)` (half-to-even on floats) is modelled as
  round-half-up on exact rationals; no verified claim depends on tie behavior.
* Optional fields (`None` in Python, and the falsy empty string used for
  unset assignment ids in the spreadsheet rows) are modelled as `Option`,
  with `none` for the absent/falsy case.
* A Python function that can raise (`ZeroDivisionError` in
  `_calculate_pilot_match_score`) is modelled as returning `Option`,
  with `none` for the raising run.
* Python `set` iteration order (in `', '.join(missing)`) is unspecified;
  missing-element lists are rendered in first-occurrence order.
* The domain entity classes (Pilot / Drone / Mission) live in
  `api/models/`, which is not part of the sources; their fields are
  modelled from the spec's §3 data model and from every field access the
  core performs on them.
-/

namespace DroneCoordinator

/-- Pilot record (spec §3; fields as accessed by the core). -/
structure Pilot where
  pilot_id : String
  name : String
  skills : List String
  certifications : List String
  location : String
  status : String
  available_from : Option Int
  deriving Repr, DecidableEq

/-- Drone record (spec §3; fields as accessed by the core). -/
structure Drone where
  drone_id : String
  location : String
  status : String
  maintenance_due : Option Int
  deriving Repr, DecidableEq

/-- Mission record (spec §3; fields as accessed by the core). -/
structure Mission where
  project_id : String
  client : String
  location : String
  required_skills : List String
  required_certs : List String
  start_date : Int
  end_date : Int
  priority : String
  assigned_pilot : Option String
  assigned_drone : Option String
  deriving Repr, DecidableEq

/-- A structured conflict record `{type, severity, message}`. -/
structure Conflict where
  type : String
  severity : String
  message : String
  deriving Repr, DecidableEq

/-- The data snapshot served by the data-access collaborator
(`sheets_service.get_pilots/get_drones/get_missions`). -/
structure SheetsData where
  pilots : List Pilot
  drones : List Drone
  missions : List Mission
  deriving Repr, DecidableEq

/-- `sheets_service.get_pilot`: first pilot whose id matches, else absent. -/
def get_pilot (data : SheetsData) (pilot_id : String) : Option Pilot :=
  data.pilots.find? (fun p => p.pilot_id == pilot_id)

/-- `sheets_service.get_drone`: first drone whose id matches, else absent. -/
def get_drone (data : SheetsData) (drone_id : String) : Option Drone :=
  data.drones.find? (fun d => d.drone_id == drone_id)

/-- `sheets_service.get_mission`: first mission whose id matches, else absent. -/
def get_mission (data : SheetsData) (project_id : String) : Option Mission :=
  data.missions.find? (fun m => m.project_id == project_id)

/-! ## Matching engine (`matching_service.py`) -/

/-- The five `continue` filters of `find_matching_pilots` (lines 22-46):
status, location, available-from, skill containment, certification
containment.  Python's `set(xs).issubset(set(ys))` is element containment. -/
def pilotMatchesFilters (mission : Mission) (pilot : Pilot) : Bool :=
  decide (pilot.status = "Available") &&
  decide (pilot.location = mission.location) &&
  (match pilot.available_from with
   | some d => decide (d ≤ mission.start_date)
   | none => true) &&
  decide (∀ s ∈ mission.required_skills, s ∈ pilot.skills) &&
  decide (∀ c ∈ mission.required_certs, c ∈ pilot.certifications)

/-- Distinct elements of `l`, first occurrence first (Python `set(l)` with the
iteration order fixed to first-occurrence order). -/
def firstDedupAux [BEq α] (seen : List α) : List α → List α
  | [] => []
  | x :: xs =>
    if seen.contains x then firstDedupAux seen xs
    else x :: firstDedupAux (x :: seen) xs

/-- Distinct elements of a list in first-occurrence order. -/
def firstDedup [BEq α] (l : List α) : List α := firstDedupAux [] l

/-- Python `round(x, 2)` modelled as round-half-up on exact rationals. -/
def round2 (q : ℚ) : ℚ := ((q * 100 + 1/2).floor : ℚ) / 100

/-- `_calculate_pilot_match_score` (lines 101-134).  The skill component
divides by `len(set(mission.required_skills))` with no zero guard, so a
mission requiring no skills makes the computation raise `ZeroDivisionError`
(modelled as `none`); the certification component is guarded. -/
def calculate_pilot_match_score (pilot : Pilot) (mission : Mission) : Option ℚ :=
  let mission_skills := firstDedup mission.required_skills
  let skill_overlap := (mission_skills.filter (fun s => pilot.skills.contains s)).length
  if mission_skills.length = 0 then
    none
  else
    let skill_score := ((skill_overlap : ℚ) / (mission_skills.length : ℚ)) * 0.4
    let mission_certs := firstDedup mission.required_certs
    let cert_overlap := (mission_certs.filter (fun c => pilot.certifications.contains c)).length
    let cert_score :=
      if mission_certs.length ≠ 0 then
        ((cert_overlap : ℚ) / (mission_certs.length : ℚ)) * 0.3
      else 0.3
    let locBonus : ℚ := if pilot.location = mission.location then 0.15 else 0
    let availBonus : ℚ :=
      match pilot.available_from with
      | some d =>
        let days_until_available := mission.start_date - d
        if 0 ≤ days_until_available then
          if days_until_available ≤ 3 then 0.15 else 0.10
        else 0
      | none => 0
    some (round2 (skill_score + cert_score + locBonus + availBonus))

/-- Score each pilot in order, propagating a raising score computation
(the loop body of `find_matching_pilots`, lines 48-50). -/
def scorePilots (mission : Mission) : List Pilot → Option (List (Pilot × ℚ))
  | [] => some []
  | p :: ps =>
    match calculate_pilot_match_score p mission with
    | none => none
    | some s => (scorePilots mission ps).map (fun rest => (p, s) :: rest)

/-- `find_matching_pilots` (lines 14-54): filter by the five feasibility
checks, score the survivors, stable-sort by score descending, return the
pilots.  `none` models the `ZeroDivisionError` raised while scoring. -/
def find_matching_pilots (mission : Mission) (pilots : List Pilot) :
    Option (List Pilot) :=
  (scorePilots mission (pilots.filter (pilotMatchesFilters mission))).map
    (fun scored =>
      (scored.mergeSort (fun a b => decide (b.2 ≤ a.2))).map (fun x => x.1))

/-- The `continue` filters of `find_matching_drones` (lines 63-80): status,
location, and — when a maintenance date is set — maintenance strictly after
the mission's end date. -/
def droneMatchesFilters (mission : Mission) (drone : Drone) : Bool :=
  decide (drone.status = "Available") &&
  decide (drone.location = mission.location) &&
  (match drone.maintenance_due with
   | some md => decide (mission.end_date < md)
   | none => true)

/-- `find_matching_drones` (lines 56-82). -/
def find_matching_drones (mission : Mission) (drones : List Drone) : List Drone :=
  drones.filter (droneMatchesFilters mission)

/-! ## Conflict detector (`conflict_detector.py`) -/

/-- `_dates_overlap` (lines 263-265). -/
def dates_overlap (start1 end1 start2 end2 : Int) : Bool :=
  decide (start1 ≤ end2) && decide (start2 ≤ end1)

/-- `check_assignment_conflicts` (lines 52-114): empty when either resource
is absent; otherwise the skill, certification, two location, maintenance and
availability checks, each contributing at most one conflict, in order. -/
def check_assignment_conflicts (mission : Mission)
    (pilotArg : Option Pilot) (droneArg : Option Drone) : List Conflict :=
  match pilotArg, droneArg with
  | some pilot, some drone =>
    let missing_skills :=
      (firstDedup mission.required_skills).filter
        (fun s => !(pilot.skills.contains s))
    let skillConf : List Conflict :=
      if missing_skills.isEmpty then [] else
        [{ type := "skill_mismatch", severity := "high",
           message := "Pilot " ++ pilot.name ++ " (" ++ pilot.pilot_id ++
             ") lacks required skills: " ++ String.intercalate ", " missing_skills ++
             " for mission " ++ mission.project_id }]
    let missing_certs :=
      (firstDedup mission.required_certs).filter
        (fun c => !(pilot.certifications.contains c))
    let certConf : List Conflict :=
      if missing_certs.isEmpty then [] else
        [{ type := "certification_mismatch", severity := "high",
           message := "Pilot " ++ pilot.name ++ " lacks required certifications: " ++
             String.intercalate ", " missing_certs ++ " for mission " ++
             mission.project_id }]
    let pilotLocConf : List Conflict :=
      if pilot.location ≠ mission.location then
        [{ type := "location_mismatch", severity := "medium",
           message := "Pilot " ++ pilot.name ++ " is in " ++ pilot.location ++
             ", but mission " ++ mission.project_id ++ " is in " ++ mission.location }]
      else []
    let droneLocConf : List Conflict :=
      if drone.location ≠ mission.location then
        [{ type := "location_mismatch", severity := "medium",
           message := "Drone " ++ drone.drone_id ++ " is in " ++ drone.location ++
             ", but mission " ++ mission.project_id ++ " is in " ++ mission.location }]
      else []
    let maintConf : List Conflict :=
      match drone.maintenance_due with
      | some md =>
        if md ≤ mission.end_date then
          [{ type := "maintenance_conflict", severity := "high",
             message := "Drone " ++ drone.drone_id ++ " requires maintenance on " ++
               toString md ++ ", during mission " ++ mission.project_id }]
        else []
      | none => []
    let availConf : List Conflict :=
      match pilot.available_from with
      | some d =>
        if mission.start_date < d then
          [{ type := "availability_conflict", severity := "high",
             message := "Pilot " ++ pilot.name ++ " is only available from " ++
               toString d ++ ", but mission " ++ mission.project_id ++
               " starts on " ++ toString mission.start_date }]
        else []
      | none => []
    skillConf ++ certConf ++ pilotLocConf ++ droneLocConf ++ maintConf ++ availConf
  | _, _ => []

/-- All ordered pairs `(l[i], l[j])` with `i < j`, in the nested-loop order
of `check_double_bookings` (lines 129-132). -/
def orderedPairs : List α → List (α × α)
  | [] => []
  | x :: xs => xs.map (fun y => (x, y)) ++ orderedPairs xs

/-- Message for a pilot double booking (line 141); the pilot's name when the
id resolves, else the raw id. -/
def pilotDoubleBookingMessage (pilots : List Pilot) (pilot_id : String)
    (m1 m2 : Mission) : String :=
  let pilot_name :=
    match pilots.find? (fun p => p.pilot_id == pilot_id) with
    | some p => p.name
    | none => pilot_id
  "Pilot " ++ pilot_name ++ " double-booked on overlapping missions: " ++
    m1.project_id ++ " (" ++ toString m1.start_date ++ "-" ++ toString m1.end_date ++
    ") and " ++ m2.project_id ++ " (" ++ toString m2.start_date ++ "-" ++
    toString m2.end_date ++ ")"

/-- `check_double_bookings` (lines 116-164).  The Python dict grouping
(`setdefault(key, []).append`) iterated over `.items()` is: assigned ids in
first-occurrence order, each with the sublist of missions carrying that id. -/
def check_double_bookings (missions : List Mission) (pilots : List Pilot)
    (_drones : List Drone) : List Conflict :=
  (firstDedup (missions.filterMap (fun m => m.assigned_pilot))).flatMap (fun pid =>
    (orderedPairs (missions.filter (fun m => m.assigned_pilot == some pid))).filterMap
      (fun pr =>
        if dates_overlap pr.1.start_date pr.1.end_date pr.2.start_date pr.2.end_date then
          some { type := "double_booking", severity := "critical",
                 message := pilotDoubleBookingMessage pilots pid pr.1 pr.2 }
        else none)) ++
  (firstDedup (missions.filterMap (fun m => m.assigned_drone))).flatMap (fun did =>
    (orderedPairs (missions.filter (fun m => m.assigned_drone == some did))).filterMap
      (fun pr =>
        if dates_overlap pr.1.start_date pr.1.end_date pr.2.start_date pr.2.end_date then
          some { type := "double_booking", severity := "critical",
                 message := "Drone " ++ did ++ " double-booked on overlapping missions: " ++
                   pr.1.project_id ++ " and " ++ pr.2.project_id }
        else none))

/-- The maintenance status fragment of the message at lines 177-178:
`days_until = (maintenance_due - today).days`. -/
def maintenanceStatus (maintenance_due today : Int) : String :=
  if maintenance_due - today < 0 then "OVERDUE"
  else "due in " ++ toString (maintenance_due - today) ++ " days"

/-- `check_maintenance_conflicts` (lines 166-186).  `today` is the
`datetime.now().date()` observed by the run, passed explicitly. -/
def check_maintenance_conflicts (drones : List Drone) (missions : List Mission)
    (today : Int) : List Conflict :=
  drones.flatMap (fun drone =>
    match drone.maintenance_due with
    | none => []
    | some md =>
      missions.filterMap (fun mission =>
        if mission.assigned_drone == some drone.drone_id then
          if md ≤ mission.end_date then
            some { type := "maintenance_conflict", severity := "high",
                   message := "Drone " ++ drone.drone_id ++ " assigned to " ++
                     mission.project_id ++ " during maintenance period (maintenance " ++
                     maintenanceStatus md today ++ ": " ++ toString md ++ ")" }
          else none
        else none))

/-- `check_certification_conflicts` (lines 188-207). -/
def check_certification_conflicts (missions : List Mission)
    (pilots : List Pilot) : List Conflict :=
  missions.flatMap (fun mission =>
    match mission.assigned_pilot with
    | none => []
    | some pid =>
      match pilots.find? (fun p => p.pilot_id == pid) with
      | none => []
      | some pilot =>
        let missing_certs :=
          (firstDedup mission.required_certs).filter
            (fun c => !(pilot.certifications.contains c))
        if missing_certs.isEmpty then [] else
          [{ type := "certification_mismatch", severity := "high",
             message := "Pilot " ++ pilot.name ++ " assigned to " ++
               mission.project_id ++ " lacks certifications: " ++
               String.intercalate ", " missing_certs }])

/-- `check_location_mismatches` (lines 209-232). -/
def check_location_mismatches (missions : List Mission) (pilots : List Pilot)
    (drones : List Drone) : List Conflict :=
  missions.flatMap (fun mission =>
    let pilotPart : List Conflict :=
      match mission.assigned_pilot with
      | none => []
      | some pid =>
        match pilots.find? (fun p => p.pilot_id == pid) with
        | none => []
        | some pilot =>
          if pilot.location ≠ mission.location then
            [{ type := "location_mismatch", severity := "medium",
               message := "Pilot " ++ pilot.name ++ " in " ++ pilot.location ++
                 " assigned to mission in " ++ mission.location ++ " (" ++
                 mission.project_id ++ ")" }]
          else []
    let dronePart : List Conflict :=
      match mission.assigned_drone with
      | none => []
      | some did =>
        match drones.find? (fun d => d.drone_id == did) with
        | none => []
        | some drone =>
          if drone.location ≠ mission.location then
            [{ type := "location_mismatch", severity := "medium",
               message := "Drone " ++ drone.drone_id ++ " in " ++ drone.location ++
                 " assigned to mission in " ++ mission.location ++ " (" ++
                 mission.project_id ++ ")" }]
          else []
    pilotPart ++ dronePart)

/-- `detect_all_conflicts` (lines 18-50): the per-assignment pass over
missions having both resources assigned, then the double-booking,
maintenance, certification and location scans, concatenated.  `today` is
the current date observed by the maintenance scan. -/
def detect_all_conflicts (data : SheetsData) (today : Int) : List Conflict :=
  data.missions.flatMap (fun mission =>
    if mission.assigned_pilot.isSome && mission.assigned_drone.isSome then
      check_assignment_conflicts mission
        (mission.assigned_pilot.bind (fun pid =>
          data.pilots.find? (fun p => p.pilot_id == pid)))
        (mission.assigned_drone.bind (fun did =>
          data.drones.find? (fun d => d.drone_id == did)))
    else []) ++
    check_double_bookings data.missions data.pilots data.drones ++
    check_maintenance_conflicts data.drones data.missions today ++
    check_certification_conflicts data.missions data.pilots ++
    check_location_mismatches data.missions data.pilots data.drones

/-- `check_pilot_conflicts` (lines 234-261): empty when the id resolves to
no pilot; otherwise the pairwise double-booking scan over that pilot's own
assigned missions. -/
def check_pilot_conflicts (data : SheetsData) (pilot_id : String) : List Conflict :=
  match get_pilot data pilot_id with
  | none => []
  | some pilot =>
    let assigned_missions :=
      data.missions.filter (fun m => m.assigned_pilot == some pilot_id)
    (orderedPairs assigned_missions).filterMap (fun pr =>
      if dates_overlap pr.1.start_date pr.1.end_date pr.2.start_date pr.2.end_date then
        some { type := "double_booking", severity := "critical",
               message := "Pilot " ++ pilot.name ++ " has overlapping assignments: " ++
                 pr.1.project_id ++ " and " ++ pr.2.project_id }
      else none)

/-! ## Assignment coordinator (`coordinator_agent.py`) -/

/-- Outcome of `assign_mission`: the returned dict, with the success flag,
the error string when failing, and the assignment record (ids and the
`datetime.now().isoformat()` timestamp) on success. -/
structure AssignOutcome where
  success : Bool
  error : Option String
  assignment : Option (String × String × String × String)
  deriving Repr, DecidableEq

/-- `assign_mission` (lines 64-109).  The collaborator's write
`sheets_service.assign_to_mission` is external state: `writeSucceeds` is the
boolean it would return, `now` the timestamp string; the second component of
the result records whether that write path was invoked at all. -/
def assign_mission (data : SheetsData) (project_id pilot_id drone_id : String)
    (writeSucceeds : Bool) (now : String) : AssignOutcome × Bool :=
  match get_mission data project_id with
  | none =>
    ({ success := false, error := some ("Mission " ++ project_id ++ " not found"),
       assignment := none }, false)
  | some mission =>
    match get_pilot data pilot_id with
    | none =>
      ({ success := false, error := some ("Pilot " ++ pilot_id ++ " not found"),
         assignment := none }, false)
    | some pilot =>
      match get_drone data drone_id with
      | none =>
        ({ success := false, error := some ("Drone " ++ drone_id ++ " not found"),
           assignment := none }, false)
      | some drone =>
        let conflicts := check_assignment_conflicts mission (some pilot) (some drone)
        if conflicts.isEmpty then
          if writeSucceeds then
            ({ success := true, error := none,
               assignment := some (project_id, pilot_id, drone_id, now) }, true)
          else
            ({ success := false,
               error := some "Failed to update assignment in sheets",
               assignment := none }, true)
        else
          ({ success := false,
             error := some ("Assignment conflicts detected:\n" ++
               String.intercalate "\n" (conflicts.map (fun c => c.message))),
             assignment := none }, false)

/-- `_get_priority_difference`'s `priority_levels` table (lines 365-372);
`dict.get(p, 0)` defaults unknown priorities to 0. -/
def priority_levels (priority : String) : Int :=
  if priority = "Urgent" then 4
  else if priority = "High" then 3
  else if priority = "Standard" then 2
  else if priority = "Low" then 1
  else 0

/-- `_get_priority_difference` (lines 363-372). -/
def get_priority_difference (priority1 priority2 : String) : Int :=
  priority_levels priority1 - priority_levels priority2

/-- One entry of the cascading-reassignment options list (lines 341-346). -/
structure ReassignmentOption where
  mission_to_delay : String
  pilot : String
  drone : String
  priority_difference : Int
  deriving Repr, DecidableEq

/-- The option-collecting loop of `_find_reassignment_options`
(lines 330-346), over the lower-priority candidate missions in order.
Looking up the candidate's pilot and drone, then evaluating them as
singleton candidate lists against the urgent mission; the raising score
computation inside `find_matching_pilots` propagates as `none`. -/
def buildReassignmentOptions (urgent : Mission) (all_pilots : List Pilot)
    (all_drones : List Drone) : List Mission → Option (List ReassignmentOption)
  | [] => some []
  | mission :: rest =>
    match mission.assigned_pilot.bind (fun pid =>
            all_pilots.find? (fun p => p.pilot_id == pid)),
          mission.assigned_drone.bind (fun did =>
            all_drones.find? (fun d => d.drone_id == did)) with
    | some pilot, some drone =>
      match find_matching_pilots urgent [pilot] with
      | none => none
      | some matching_pilots =>
        let matching_drones := find_matching_drones urgent [drone]
        if !matching_pilots.isEmpty && !matching_drones.isEmpty then
          (buildReassignmentOptions urgent all_pilots all_drones rest).map
            (fun tail =>
              { mission_to_delay := mission.project_id,
                pilot := pilot.pilot_id,
                drone := drone.drone_id,
                priority_difference :=
                  get_priority_difference urgent.priority mission.priority } :: tail)
        else buildReassignmentOptions urgent all_pilots all_drones rest
    | _, _ => buildReassignmentOptions urgent all_pilots all_drones rest

/-- `_find_reassignment_options` (lines 315-361): filter to Standard/Low
missions holding both resources, collect the candidate options, stable-sort
descending by priority difference (`sort(key=priority_difference,
reverse=True)`).  The Python wraps a nonempty result in a success dict and
an empty one in a failure dict; the options list itself is returned here. -/
def find_reassignment_options (urgent : Mission) (all_missions : List Mission)
    (all_pilots : List Pilot) (all_drones : List Drone) :
    Option (List ReassignmentOption) :=
  (buildReassignmentOptions urgent all_pilots all_drones
      (all_missions.filter (fun m =>
        (m.priority == "Standard" || m.priority == "Low") &&
        m.assigned_pilot.isSome && m.assigned_drone.isSome))).map
    (fun options =>
      options.mergeSort (fun a b => decide (b.priority_difference ≤ a.priority_difference)))

/-! ## Helper lemmas -/

/-- `msg` contains both `a` and `b` as (disjoint, in either order)
substrings: the formal reading of "the message names both missions". -/
def mentionsBoth (msg a b : String) : Prop :=
  (∃ s1 s2 s3, msg = s1 ++ a ++ s2 ++ b ++ s3) ∨
  (∃ s1 s2 s3, msg = s1 ++ b ++ s2 ++ a ++ s3)

/-! ## Concrete records used by witnesses and counterexamples -/

/-- A pilot available in Bangalore with one skill and one certification. -/
def pilotA : Pilot :=
  { pilot_id := "P001"
    name := "Asha"
    skills := ["mapping"]
    certifications := ["DGCA"]
    location := "Bangalore"
    status := "Available"
    available_from := some 8 }

/-- A drone available in Bangalore with no pending maintenance. -/
def droneA : Drone :=
  { drone_id := "D001"
    location := "Bangalore"
    status := "Available"
    maintenance_due := none }

/-- An unassigned mission in Bangalore requiring `pilotA`'s skill set. -/
def missionA : Mission :=
  { project_id := "PRJ001"
    client := "Acme"
    location := "Bangalore"
    required_skills := ["mapping"]
    required_certs := ["DGCA"]
    start_date := 10
    end_date := 20
    priority := "Urgent"
    assigned_pilot := none
    assigned_drone := none }

/-- `droneA` with maintenance falling due exactly on `missionA`'s end date. -/
def droneDueAtEnd : Drone := { droneA with maintenance_due := some 20 }

/-- Snapshot whose only mission references pilot id `P009`, which resolves
to no pilot. -/
def dataUnknownPilot : SheetsData :=
  { pilots := []
    drones := []
    missions := [{ missionA with assigned_pilot := some "P009" }] }

/-- Snapshot whose pilot lacks `missionA`'s required skill, so that the
assignment is conflicted. -/
def dataConflicted : SheetsData :=
  { pilots := [{ pilotA with skills := [] }]
    drones := [droneA]
    missions := [missionA] }

/-- Two missions sharing pilot `P001` whose ranges touch exactly on the
boundary date. -/
def missionB1 : Mission :=
  { missionA with project_id := "PRJ001", start_date := 1, end_date := 5,
                  assigned_pilot := some "P001" }

/-- Second mission of the shared-pilot boundary-overlap pair. -/
def missionB2 : Mission :=
  { missionA with project_id := "PRJ002", start_date := 5, end_date := 10,
                  assigned_pilot := some "P001" }

/-- Snapshot with the two boundary-overlapping missions of pilot `P001`. -/
def dataDoubleBooked : SheetsData :=
  { pilots := [pilotA]
    drones := []
    missions := [missionB1, missionB2] }

/-- Drone whose maintenance falls due during its assigned mission. -/
def droneM : Drone := { droneA with maintenance_due := some 15 }

/-- `missionA` with `droneM` assigned. -/
def missionM : Mission := { missionA with assigned_drone := some "D001" }

/-- Snapshot holding exactly one maintenance conflict. -/
def dataMaint : SheetsData :=
  { pilots := []
    drones := [droneM]
    missions := [missionM] }

/-- Second available pilot, used by the Low-priority candidate mission. -/
def pilotB : Pilot := { pilotA with pilot_id := "P002", name := "Birju" }

/-- Second available drone, used by the Low-priority candidate mission. -/
def droneB : Drone := { droneA with drone_id := "D002" }

/-- Standard-priority delay-candidate mission holding `pilotA`/`droneA`. -/
def missionStd : Mission :=
  { missionA with project_id := "PRJ002", priority := "Standard",
                  assigned_pilot := some "P001", assigned_drone := some "D001" }

/-- Low-priority delay-candidate mission holding `pilotB`/`droneB`. -/
def missionLow : Mission :=
  { missionA with project_id := "PRJ003", priority := "Low",
                  assigned_pilot := some "P002", assigned_drone := some "D002" }

/-- Urgent mission needing resources. -/
def missionU : Mission := { missionA with project_id := "PRJ009", priority := "Urgent" }

/-- The reassignment option delaying the Standard-priority mission (gap 2). -/
def optStd : ReassignmentOption :=
  { mission_to_delay := "PRJ002", pilot := "P001", drone := "D001",
    priority_difference := 2 }

/-- The reassignment option delaying the Low-priority mission (gap 3). -/
def optLow : ReassignmentOption :=
  { mission_to_delay := "PRJ003", pilot := "P002", drone := "D002",
    priority_difference := 3 }

theorem dates_overlap_symm (a b c d : Int) :
    dates_overlap a b c d = dates_overlap c d a b := by
  simp only [dates_overlap]
  by_cases h1 : a ≤ d <;> by_cases h2 : c ≤ b <;> simp [h1, h2]

theorem scorePilots_map_fst (mission : Mission) :
    ∀ (l : List Pilot) (scored : List (Pilot × ℚ)),
      scorePilots mission l = some scored → scored.map Prod.fst = l
  | [], scored, h => by
    simp only [scorePilots, Option.some.injEq] at h
    simp [← h]
  | p :: ps, scored, h => by
    simp only [scorePilots] at h
    cases hs : calculate_pilot_match_score p mission with
    | none => rw [hs] at h; simp at h
    | some s =>
      rw [hs] at h
      cases ht : scorePilots mission ps with
      | none => rw [ht] at h; simp at h
      | some rest =>
        rw [ht] at h
        simp only [Option.map_some', Option.some.injEq] at h
        subst h
        simp [scorePilots_map_fst mission ps rest ht]

theorem pilotMatchesFilters_iff (mission : Mission) (p : Pilot) :
    pilotMatchesFilters mission p = true ↔
      (p.status = "Available" ∧ p.location = mission.location ∧
       (∀ d, p.available_from = some d → d ≤ mission.start_date) ∧
       (∀ s ∈ mission.required_skills, s ∈ p.skills) ∧
       (∀ c ∈ mission.required_certs, c ∈ p.certifications)) := by
  unfold pilotMatchesFilters
  cases hav : p.available_from with
  | none => simp [hav, Bool.and_eq_true, decide_eq_true_eq, and_assoc]
  | some d => simp [hav, Bool.and_eq_true, decide_eq_true_eq, and_assoc]

theorem mem_firstDedupAux [BEq α] [LawfulBEq α] (x : α) :
    ∀ (l seen : List α), x ∈ l → ¬ x ∈ seen → x ∈ firstDedupAux seen l
  | [], _, hx, _ => by cases hx
  | y :: ys, seen, hx, hseen => by
    simp only [firstDedupAux]
    by_cases hy : seen.contains y
    · rw [if_pos hy]
      have hy' : y ∈ seen := by simpa using hy
      rcases List.mem_cons.mp hx with h | h
      · subst h
        exact absurd hy' hseen
      · exact mem_firstDedupAux x ys seen h hseen
    · rw [if_neg hy]
      by_cases hxy : x = y
      · subst hxy; exact List.mem_cons_self _ _
      · rcases List.mem_cons.mp hx with h | h
        · exact absurd h hxy
        · refine List.mem_cons_of_mem _ (mem_firstDedupAux x ys (y :: seen) h ?_)
          intro hmem
          rcases List.mem_cons.mp hmem with h2 | h2
          · exact hxy h2
          · exact hseen h2

theorem mem_firstDedup [BEq α] [LawfulBEq α] {x : α} {l : List α}
    (h : x ∈ l) : x ∈ firstDedup l :=
  mem_firstDedupAux x l [] h (by simp)

theorem mem_orderedPairs (x y : α) :
    ∀ (l : List α), x ∈ l → y ∈ l → x ≠ y →
      (x, y) ∈ orderedPairs l ∨ (y, x) ∈ orderedPairs l
  | [], hx, _, _ => by cases hx
  | z :: zs, hx, hy, hne => by
    simp only [orderedPairs, List.mem_append]
    rcases List.mem_cons.mp hx with h1 | h1
    · subst h1
      rcases List.mem_cons.mp hy with h2 | h2
      · exact absurd h2.symm hne
      · exact Or.inl (Or.inl (List.mem_map.mpr ⟨y, h2, rfl⟩))
    · rcases List.mem_cons.mp hy with h2 | h2
      · subst h2
        exact Or.inr (Or.inl (List.mem_map.mpr ⟨x, h1, rfl⟩))
      · rcases mem_orderedPairs x y zs h1 h2 hne with h | h
        · exact Or.inl (Or.inr h)
        · exact Or.inr (Or.inr h)

/-! ## Claim theorems -/

/-- C8: the date-overlap predicate `_dates_overlap` is symmetric, and a
range with `start ≤ end` overlaps itself. -/
theorem dates_overlap_symm_and_refl :
    (∀ a b c d : Int, dates_overlap a b c d = dates_overlap c d a b) ∧
    (∀ a b : Int, a ≤ b → dates_overlap a b a b = true) := by
  constructor
  · exact dates_overlap_symm
  · intro a b h
    simp [dates_overlap, h]

/-- Witness for C8 at concrete dates. -/
theorem dates_overlap_symm_and_refl_witness :
    dates_overlap 1 5 3 9 = dates_overlap 3 9 1 5 ∧
    (2 : Int) ≤ 4 ∧ dates_overlap 2 4 2 4 = true :=
  ⟨dates_overlap_symm_and_refl.1 1 5 3 9, by decide,
   dates_overlap_symm_and_refl.2 2 4 (by decide)⟩

/-- C6: a drone whose `maintenance_due` is set and is on or before the
mission's end date never appears in `find_matching_drones` — the
maintenance date must be strictly after the mission's end date. -/
theorem maintenance_due_excludes_drone (mission : Mission)
    (drones : List Drone) (drone : Drone) (md : Int)
    (hdue : drone.maintenance_due = some md) (hle : md ≤ mission.end_date) :
    drone ∉ find_matching_drones mission drones := by
  intro hmem
  have := (List.mem_filter.mp hmem).2
  simp only [droneMatchesFilters, hdue, Bool.and_eq_true, decide_eq_true_eq] at this
  omega

/-- Witness for C6: maintenance due exactly on the mission's end date. -/
theorem maintenance_due_excludes_drone_witness :
    droneDueAtEnd.maintenance_due = some 20 ∧ (20 : Int) ≤ missionA.end_date ∧
    droneDueAtEnd ∉ find_matching_drones missionA [droneDueAtEnd] :=
  ⟨rfl, by decide, maintenance_due_excludes_drone _ _ _ 20 rfl (by decide)⟩

/-- C9: `check_assignment_conflicts` returns the empty list whenever its
pilot argument or its drone argument is absent. -/
theorem check_assignment_conflicts_absent (mission : Mission)
    (pilotArg : Option Pilot) (droneArg : Option Drone)
    (h : pilotArg = none ∨ droneArg = none) :
    check_assignment_conflicts mission pilotArg droneArg = [] := by
  cases h with
  | inl h => subst h; cases droneArg <;> rfl
  | inr h => subst h; cases pilotArg <;> rfl

/-- Witness for C9 at a concrete mission with an absent pilot. -/
theorem check_assignment_conflicts_absent_witness :
    ((none : Option Pilot) = none ∨ (some droneA : Option Drone) = none) ∧
    check_assignment_conflicts missionA none (some droneA) = [] :=
  ⟨Or.inl rfl, check_assignment_conflicts_absent _ _ _ (Or.inl rfl)⟩

/-- C10: when no pilot in the snapshot carries the requested id,
`check_pilot_conflicts` returns the empty list, regardless of what the
missions reference. -/
theorem check_pilot_conflicts_unknown_id (data : SheetsData) (pilot_id : String)
    (h : ∀ p ∈ data.pilots, p.pilot_id ≠ pilot_id) :
    check_pilot_conflicts data pilot_id = [] := by
  unfold check_pilot_conflicts get_pilot
  rw [List.find?_eq_none.mpr]
  intro p hp
  simpa using h p hp

/-- Witness for C10: a mission referencing pilot id `P009` while the pilot
list is empty. -/
theorem check_pilot_conflicts_unknown_id_witness :
    (∀ p ∈ dataUnknownPilot.pilots, p.pilot_id ≠ "P009") ∧
    check_pilot_conflicts dataUnknownPilot "P009" = [] :=
  ⟨fun p hp => absurd hp (List.not_mem_nil p),
   check_pilot_conflicts_unknown_id _ _ (fun p hp => absurd hp (List.not_mem_nil p))⟩

/-- C1: a pilot appears in the list returned by `find_matching_pilots`
iff it is among the candidates and passes exactly the five feasibility
filters: Available status, matching location, available-from unset or at
most the start date, required skills contained in the pilot's skills, and
required certifications contained in the pilot's certifications. -/
theorem find_matching_pilots_membership (mission : Mission)
    (pilots res : List Pilot)
    (h : find_matching_pilots mission pilots = some res) (p : Pilot) :
    p ∈ res ↔
      p ∈ pilots ∧ p.status = "Available" ∧ p.location = mission.location ∧
      (∀ d, p.available_from = some d → d ≤ mission.start_date) ∧
      (∀ s ∈ mission.required_skills, s ∈ p.skills) ∧
      (∀ c ∈ mission.required_certs, c ∈ p.certifications) := by
  unfold find_matching_pilots at h
  cases hs : scorePilots mission (pilots.filter (pilotMatchesFilters mission)) with
  | none => rw [hs] at h; simp at h
  | some scored =>
    rw [hs] at h
    simp only [Option.map_some', Option.some.injEq] at h
    subst h
    have hperm :=
      (List.mergeSort_perm scored (fun a b => decide (b.2 ≤ a.2))).map
        (fun x : Pilot × ℚ => x.1)
    rw [hperm.mem_iff, scorePilots_map_fst mission _ scored hs, List.mem_filter,
      pilotMatchesFilters_iff]

/-- Witness for C1: `pilotA` passes all of `missionA`'s filters and is
returned. -/
theorem find_matching_pilots_membership_witness :
    find_matching_pilots missionA [pilotA] = some [pilotA] ∧
    (pilotA ∈ [pilotA] ↔
      pilotA ∈ [pilotA] ∧ pilotA.status = "Available" ∧
      pilotA.location = missionA.location ∧
      (∀ d, pilotA.available_from = some d → d ≤ missionA.start_date) ∧
      (∀ s ∈ missionA.required_skills, s ∈ pilotA.skills) ∧
      (∀ c ∈ missionA.required_certs, c ∈ pilotA.certifications)) := by
  have he : find_matching_pilots missionA [pilotA] = some [pilotA] := by
    simp [find_matching_pilots, scorePilots, pilotMatchesFilters, List.filter,
      calculate_pilot_match_score, firstDedup, firstDedupAux, List.mergeSort]
  exact ⟨he, find_matching_pilots_membership missionA [pilotA] [pilotA] he pilotA⟩

/-- C2 (code bug): `_calculate_pilot_match_score` divides
`skill_overlap` by `len(set(mission.required_skills))` with no zero guard,
so a mission requiring no skills makes the score computation raise
`ZeroDivisionError` (modelled as `none`) instead of contributing a defined
value; `find_matching_pilots` then raises as soon as any pilot passes the
filters of such a mission. -/
theorem match_score_division_by_zero :
    calculate_pilot_match_score pilotA
      { missionA with required_skills := [] } = none ∧
    find_matching_pilots { missionA with required_skills := [] } [pilotA] =
      none := by
  exact ⟨rfl, by decide⟩

/-- C3: when the mission, pilot and drone all load and
`check_assignment_conflicts` is non-empty, `assign_mission` returns a
failure carrying the concatenated conflict messages and never invokes the
collaborator's `assign_to_mission` write path (second component `false`). -/
theorem assign_mission_blocks_on_conflict (data : SheetsData)
    (project_id pilot_id drone_id : String) (writeSucceeds : Bool)
    (now : String) (mission : Mission) (pilot : Pilot) (drone : Drone)
    (hm : get_mission data project_id = some mission)
    (hp : get_pilot data pilot_id = some pilot)
    (hd : get_drone data drone_id = some drone)
    (hc : check_assignment_conflicts mission (some pilot) (some drone) ≠ []) :
    assign_mission data project_id pilot_id drone_id writeSucceeds now =
      ({ success := false
         error := some ("Assignment conflicts detected:\n" ++
           String.intercalate "\n"
             ((check_assignment_conflicts mission (some pilot) (some drone)).map
               (fun c => c.message)))
         assignment := none }, false) := by
  unfold assign_mission
  rw [hm, hp, hd]
  have hempty :
      (check_assignment_conflicts mission (some pilot) (some drone)).isEmpty =
        false := by
    cases hcase : check_assignment_conflicts mission (some pilot) (some drone) with
    | nil => exact absurd hcase hc
    | cons a l => rfl
  simp [hempty]

/-- Witness for C3: assigning `missionA` to a pilot lacking its required
skill fails with the conflict messages and no write. -/
theorem assign_mission_blocks_on_conflict_witness :
    get_mission dataConflicted "PRJ001" = some missionA ∧
    get_pilot dataConflicted "P001" = some { pilotA with skills := [] } ∧
    get_drone dataConflicted "D001" = some droneA ∧
    check_assignment_conflicts missionA (some { pilotA with skills := [] })
      (some droneA) ≠ [] ∧
    assign_mission dataConflicted "PRJ001" "P001" "D001" true "2024-01-01T00:00:00" =
      ({ success := false
         error := some ("Assignment conflicts detected:\n" ++
           String.intercalate "\n"
             ((check_assignment_conflicts missionA
                 (some { pilotA with skills := [] }) (some droneA)).map
               (fun c => c.message)))
         assignment := none }, false) := by
  refine ⟨by decide, by decide, by decide, by decide, ?_⟩
  exact assign_mission_blocks_on_conflict dataConflicted "PRJ001" "P001" "D001"
    true "2024-01-01T00:00:00" missionA { pilotA with skills := [] } droneA
    (by decide) (by decide) (by decide) (by decide)

theorem mentionsBoth_symm {msg a b : String} (h : mentionsBoth msg a b) :
    mentionsBoth msg b a := h.symm

theorem mentionsBoth_pilotMessage (pilots : List Pilot) (pid : String)
    (m1 m2 : Mission) :
    mentionsBoth (pilotDoubleBookingMessage pilots pid m1 m2)
      m1.project_id m2.project_id := by
  refine Or.inl ⟨"Pilot " ++ (match pilots.find? (fun p => p.pilot_id == pid) with
      | some p => p.name
      | none => pid) ++ " double-booked on overlapping missions: ",
    " (" ++ toString m1.start_date ++ "-" ++ toString m1.end_date ++ ") and ",
    " (" ++ toString m2.start_date ++ "-" ++ toString m2.end_date ++ ")", ?_⟩
  simp [pilotDoubleBookingMessage, String.append_assoc]

theorem mentionsBoth_droneMessage (did : String) (m1 m2 : Mission) :
    mentionsBoth ("Drone " ++ did ++ " double-booked on overlapping missions: " ++
      m1.project_id ++ " and " ++ m2.project_id) m1.project_id m2.project_id := by
  refine Or.inl ⟨"Drone " ++ did ++ " double-booked on overlapping missions: ",
    " and ", "", ?_⟩
  simp [String.append_assoc]

theorem double_booking_pilot_mem (missions : List Mission) (pilots : List Pilot)
    (drones : List Drone) (m1 m2 : Mission) (pid : String)
    (h1 : m1 ∈ missions) (h2 : m2 ∈ missions) (hne : m1 ≠ m2)
    (hp1 : m1.assigned_pilot = some pid) (hp2 : m2.assigned_pilot = some pid)
    (hov : dates_overlap m1.start_date m1.end_date m2.start_date m2.end_date = true) :
    ∃ c ∈ check_double_bookings missions pilots drones,
      c.type = "double_booking" ∧ c.severity = "critical" ∧
      mentionsBoth c.message m1.project_id m2.project_id := by
  have hpid : pid ∈ firstDedup (missions.filterMap (fun m => m.assigned_pilot)) :=
    mem_firstDedup (List.mem_filterMap.mpr ⟨m1, h1, hp1⟩)
  have hm1g : m1 ∈ missions.filter (fun m => m.assigned_pilot == some pid) :=
    List.mem_filter.mpr ⟨h1, by simp [hp1]⟩
  have hm2g : m2 ∈ missions.filter (fun m => m.assigned_pilot == some pid) :=
    List.mem_filter.mpr ⟨h2, by simp [hp2]⟩
  rcases mem_orderedPairs m1 m2 _ hm1g hm2g hne with hpair | hpair
  · refine ⟨Conflict.mk "double_booking" "critical"
        (pilotDoubleBookingMessage pilots pid m1 m2), ?_, rfl, rfl,
      mentionsBoth_pilotMessage pilots pid m1 m2⟩
    refine List.mem_append.mpr (Or.inl (List.mem_flatMap.mpr ⟨pid, hpid, ?_⟩))
    exact List.mem_filterMap.mpr ⟨(m1, m2), hpair, by rw [if_pos hov]⟩
  · have hov2 : dates_overlap m2.start_date m2.end_date m1.start_date m1.end_date =
        true := by rw [dates_overlap_symm]; exact hov
    refine ⟨Conflict.mk "double_booking" "critical"
        (pilotDoubleBookingMessage pilots pid m2 m1), ?_, rfl, rfl,
      mentionsBoth_symm (mentionsBoth_pilotMessage pilots pid m2 m1)⟩
    refine List.mem_append.mpr (Or.inl (List.mem_flatMap.mpr ⟨pid, hpid, ?_⟩))
    exact List.mem_filterMap.mpr ⟨(m2, m1), hpair, by rw [if_pos hov2]⟩

theorem double_booking_drone_mem (missions : List Mission) (pilots : List Pilot)
    (drones : List Drone) (m1 m2 : Mission) (did : String)
    (h1 : m1 ∈ missions) (h2 : m2 ∈ missions) (hne : m1 ≠ m2)
    (hd1 : m1.assigned_drone = some did) (hd2 : m2.assigned_drone = some did)
    (hov : dates_overlap m1.start_date m1.end_date m2.start_date m2.end_date = true) :
    ∃ c ∈ check_double_bookings missions pilots drones,
      c.type = "double_booking" ∧ c.severity = "critical" ∧
      mentionsBoth c.message m1.project_id m2.project_id := by
  have hdid : did ∈ firstDedup (missions.filterMap (fun m => m.assigned_drone)) :=
    mem_firstDedup (List.mem_filterMap.mpr ⟨m1, h1, hd1⟩)
  have hm1g : m1 ∈ missions.filter (fun m => m.assigned_drone == some did) :=
    List.mem_filter.mpr ⟨h1, by simp [hd1]⟩
  have hm2g : m2 ∈ missions.filter (fun m => m.assigned_drone == some did) :=
    List.mem_filter.mpr ⟨h2, by simp [hd2]⟩
  rcases mem_orderedPairs m1 m2 _ hm1g hm2g hne with hpair | hpair
  · refine ⟨Conflict.mk "double_booking" "critical"
        ("Drone " ++ did ++ " double-booked on overlapping missions: " ++
          m1.project_id ++ " and " ++ m2.project_id), ?_, rfl, rfl,
      mentionsBoth_droneMessage did m1 m2⟩
    refine List.mem_append.mpr (Or.inr (List.mem_flatMap.mpr ⟨did, hdid, ?_⟩))
    exact List.mem_filterMap.mpr ⟨(m1, m2), hpair, by rw [if_pos hov]⟩
  · have hov2 : dates_overlap m2.start_date m2.end_date m1.start_date m1.end_date =
        true := by rw [dates_overlap_symm]; exact hov
    refine ⟨Conflict.mk "double_booking" "critical"
        ("Drone " ++ did ++ " double-booked on overlapping missions: " ++
          m2.project_id ++ " and " ++ m1.project_id), ?_, rfl, rfl,
      mentionsBoth_symm (mentionsBoth_droneMessage did m2 m1)⟩
    refine List.mem_append.mpr (Or.inr (List.mem_flatMap.mpr ⟨did, hdid, ?_⟩))
    exact List.mem_filterMap.mpr ⟨(m2, m1), hpair, by rw [if_pos hov2]⟩

/-- C4: for every pair of distinct missions assigned to the same pilot (or
the same drone) whose inclusive date ranges satisfy `s1 ≤ e2` and
`s2 ≤ e1` — boundary-touching included — `detect_all_conflicts` emits a
`double_booking` conflict of severity `critical` whose message names both
missions. -/
theorem detect_all_conflicts_double_booking (data : SheetsData) (today : Int)
    (m1 m2 : Mission) (rid : String)
    (h1 : m1 ∈ data.missions) (h2 : m2 ∈ data.missions) (hne : m1 ≠ m2)
    (hov1 : m1.start_date ≤ m2.end_date) (hov2 : m2.start_date ≤ m1.end_date)
    (hres : (m1.assigned_pilot = some rid ∧ m2.assigned_pilot = some rid) ∨
            (m1.assigned_drone = some rid ∧ m2.assigned_drone = some rid)) :
    ∃ c ∈ detect_all_conflicts data today,
      c.type = "double_booking" ∧ c.severity = "critical" ∧
      mentionsBoth c.message m1.project_id m2.project_id := by
  have hov : dates_overlap m1.start_date m1.end_date m2.start_date m2.end_date =
      true := by simp [dates_overlap, hov1, hov2]
  have hmem :
      ∃ c ∈ check_double_bookings data.missions data.pilots data.drones,
        c.type = "double_booking" ∧ c.severity = "critical" ∧
        mentionsBoth c.message m1.project_id m2.project_id := by
    rcases hres with ⟨hp1, hp2⟩ | ⟨hd1, hd2⟩
    · exact double_booking_pilot_mem data.missions data.pilots data.drones
        m1 m2 rid h1 h2 hne hp1 hp2 hov
    · exact double_booking_drone_mem data.missions data.pilots data.drones
        m1 m2 rid h1 h2 hne hd1 hd2 hov
  obtain ⟨c, hc, hP⟩ := hmem
  refine ⟨c, ?_, hP⟩
  unfold detect_all_conflicts
  simp only [List.mem_append]
  tauto

/-- Witness for C4 at the boundary-sharing pair of missions. -/
theorem detect_all_conflicts_double_booking_witness :
    missionB1 ∈ dataDoubleBooked.missions ∧
    missionB2 ∈ dataDoubleBooked.missions ∧ missionB1 ≠ missionB2 ∧
    missionB1.start_date ≤ missionB2.end_date ∧
    missionB2.start_date ≤ missionB1.end_date ∧
    missionB1.assigned_pilot = some "P001" ∧
    missionB2.assigned_pilot = some "P001" ∧
    ∃ c ∈ detect_all_conflicts dataDoubleBooked 0,
      c.type = "double_booking" ∧ c.severity = "critical" ∧
      mentionsBoth c.message missionB1.project_id missionB2.project_id := by
  refine ⟨by decide, by decide, by decide, by decide, by decide, rfl, rfl, ?_⟩
  exact detect_all_conflicts_double_booking dataDoubleBooked 0 missionB1 missionB2
    "P001" (by decide) (by decide) (by decide) (by decide) (by decide)
    (Or.inl ⟨rfl, rfl⟩)

theorem check_maintenance_conflicts_typesev (drones : List Drone)
    (missions : List Mission) (t1 t2 : Int) :
    (check_maintenance_conflicts drones missions t1).map
      (fun c => (c.type, c.severity)) =
    (check_maintenance_conflicts drones missions t2).map
      (fun c => (c.type, c.severity)) := by
  unfold check_maintenance_conflicts
  rw [List.map_flatMap, List.map_flatMap]
  congr 1
  funext drone
  cases hd : drone.maintenance_due with
  | none => rfl
  | some md =>
    rw [List.map_filterMap, List.map_filterMap]
    congr 1
    funext mission
    by_cases h1 : (mission.assigned_drone == some drone.drone_id) = true
    · by_cases h2 : md ≤ mission.end_date
      · simp [h1, h2]
      · simp [h1, h2]
    · simp [h1]

/-- C5 (amended): `detect_all_conflicts` is a pure function of the data
snapshot and the current date, so two runs on unchanged data observing the
same current date return the same multiset of conflicts; across different
observation dates the conflict types and severities (and hence the count)
still agree, only the maintenance-scan message text (days-until rendering)
may differ. -/
theorem detect_all_conflicts_deterministic :
    (∀ (data : SheetsData) (t1 t2 : Int), t1 = t2 →
      Multiset.ofList (detect_all_conflicts data t1) =
        Multiset.ofList (detect_all_conflicts data t2)) ∧
    (∀ (data : SheetsData) (t1 t2 : Int),
      (detect_all_conflicts data t1).map (fun c => (c.type, c.severity)) =
        (detect_all_conflicts data t2).map (fun c => (c.type, c.severity))) := by
  constructor
  · intro data t1 t2 h
    rw [h]
  · intro data t1 t2
    unfold detect_all_conflicts
    simp only [List.map_append]
    rw [check_maintenance_conflicts_typesev data.drones data.missions t1 t2]

/-- Counterexample for C5 as stated: on unchanged data, two runs of
`detect_all_conflicts` observing different current dates return different
conflict lists (the maintenance message renders "due in 15 days" versus
"due in 14 days"), so idempotence does not hold unconditionally. -/
theorem detect_all_conflicts_not_idempotent_across_days :
    detect_all_conflicts dataMaint 0 ≠ detect_all_conflicts dataMaint 1 := by
  decide

/-- Witness for C5 (amended) at the concrete snapshot. -/
theorem detect_all_conflicts_deterministic_witness :
    (3 : Int) = 3 ∧
    Multiset.ofList (detect_all_conflicts dataMaint 3) =
      Multiset.ofList (detect_all_conflicts dataMaint 3) ∧
    (detect_all_conflicts dataMaint 0).map (fun c => (c.type, c.severity)) =
      (detect_all_conflicts dataMaint 1).map (fun c => (c.type, c.severity)) :=
  ⟨rfl, detect_all_conflicts_deterministic.1 dataMaint 3 3 rfl,
   detect_all_conflicts_deterministic.2 dataMaint 0 1⟩

/-- C7: every options list returned by the cascading reassignment search is
sorted descending by its recorded priority difference, where the rank table
is Urgent=4, High=3, Standard=2, Low=1 and each recorded difference is
`priority_levels urgent − priority_levels candidate`. -/
theorem reassignment_options_sorted :
    (∀ (urgent : Mission) (ms : List Mission) (ps : List Pilot)
        (ds : List Drone) (opts : List ReassignmentOption),
      find_reassignment_options urgent ms ps ds = some opts →
      opts.Pairwise (fun a b => b.priority_difference ≤ a.priority_difference)) ∧
    priority_levels "Urgent" = 4 ∧ priority_levels "High" = 3 ∧
    priority_levels "Standard" = 2 ∧ priority_levels "Low" = 1 ∧
    (∀ p1 p2, get_priority_difference p1 p2 =
      priority_levels p1 - priority_levels p2) := by
  refine ⟨?_, by decide, by decide, by decide, by decide, fun p1 p2 => rfl⟩
  intro urgent ms ps ds opts h
  unfold find_reassignment_options at h
  cases hb : buildReassignmentOptions urgent ps ds (ms.filter (fun m =>
      (m.priority == "Standard" || m.priority == "Low") &&
      m.assigned_pilot.isSome && m.assigned_drone.isSome)) with
  | none => rw [hb] at h; simp at h
  | some options =>
    rw [hb] at h
    simp only [Option.map_some', Option.some.injEq] at h
    subst h
    refine List.Pairwise.imp ?_ (List.sorted_mergeSort ?_ ?_ options)
    · intro a b hab
      exact of_decide_eq_true hab
    · intro a b c hab hbc
      simp only [decide_eq_true_eq] at hab hbc ⊢
      omega
    · intro a b
      simp only [Bool.or_eq_true, decide_eq_true_eq]
      omega

/-- Witness for C7: with one Standard- and one Low-priority delay-candidate
for an Urgent mission, the Low-priority option (gap 3) is returned before
the Standard-priority option (gap 2), and the list is sorted descending. -/
theorem reassignment_options_sorted_witness :
    find_reassignment_options missionU [missionStd, missionLow]
      [pilotA, pilotB] [droneA, droneB] = some [optLow, optStd] ∧
    List.Pairwise
      (fun a b : ReassignmentOption =>
        b.priority_difference ≤ a.priority_difference) [optLow, optStd] := by
  have he : find_reassignment_options missionU [missionStd, missionLow]
      [pilotA, pilotB] [droneA, droneB] = some [optLow, optStd] := by
    simp [find_reassignment_options, buildReassignmentOptions, find_matching_pilots,
      scorePilots, pilotMatchesFilters, calculate_pilot_match_score, firstDedup,
      firstDedupAux, List.mergeSort, find_matching_drones, droneMatchesFilters,
      List.filter, missionU, missionStd, missionLow, pilotA, pilotB, droneA, droneB,
      missionA, optStd, optLow, get_priority_difference, priority_levels]
  exact ⟨he, reassignment_options_sorted.1 missionU [missionStd, missionLow]
    [pilotA, pilotB] [droneA, droneB] [optLow, optStd] he⟩

end DroneCoordinator
